import Mathlib

/-!
Verification of the tool-dispatch core of the blogger-mcp-server repository.

The definitions below are a shallow embedding of the HTTP dispatch path of
src/index.ts (the main entry point): the statistics tracker
(updateStats, lines 257-281), the connection tracker (updateConnections,
lines 283-321), the registry built with a JS Map (line 55), and the
per-request dispatch logic of the HTTP request handler (lines 135-224).
JavaScript objects and Maps keyed by strings are embedded as association
lists with the exact JS semantics (insertion order, set overwrites the
value of the first matching key in place, Map construction from a list
lets later entries overwrite earlier ones).  Timestamps (Date values)
are embedded as Int milliseconds; Date comparison is Int comparison.
Handlers are asynchronous external calls: a handler is embedded as a
function from validated parameters to an outcome, which either resolves
with a result object or rejects (throws) with a description string.
Elapsed wall-clock time is embedded by explicit per-phase durations: the
clock starts at some value and advances by the duration of each phase
(registry lookup, zod validation, handler execution) in program order,
exactly where the source code would spend time between its two
Date.now() calls.
-/

set_option autoImplicit false

namespace BloggerMCP

/-- JSON-style parameter values, as far as the tool schemas of
src/server.ts need them (string, number, boolean, null fields). -/
inductive JVal where
  | jstr (s : String)
  | jnum (n : Int)
  | jbool (b : Bool)
  | jnull
deriving DecidableEq, Repr

/-- A JSON object of request parameters: the params field of the HTTP
request body, a JS object embedded as an association list. -/
abbrev Params := List (String × JVal)

/-- The object a tool handler resolves with (src/server.ts): a content
list with a single text entry, plus the optional isError flag.  We keep
the text of the single content entry and the flag. -/
structure ToolResult where
  text : String
  isError : Bool
deriving DecidableEq, Repr

/-- Outcome of awaiting a handler: it either resolves with a result
object (possibly flagged isError, see the catch blocks in
src/server.ts) or rejects; a rejection carries the string interpolation
of the thrown value. -/
inductive HandlerOutcome where
  | returns (result : ToolResult)
  | throws (description : String)
deriving DecidableEq, Repr

/-- A tool definition from createToolDefinitions (src/server.ts): name,
description, the zod schema embedded as a validation function
(args.parse either returns validated params or throws details), and the
handler. -/
structure ToolDef where
  name : String
  description : String
  validate : Params → Except String Params
  handler : Params → HandlerOutcome

/-- Lookup in a JS object or Map embedded as an association list:
the value at the first entry whose key matches. -/
def recGet {α : Type} (m : List (String × α)) (k : String) : Option α :=
  (m.find? (fun p => p.1 == k)).map (fun p => p.2)

/-- JS assignment obj[k] = v (and Map.set): overwrite the value in
place when the key is present, append a fresh entry otherwise. -/
def recSet {α : Type} (m : List (String × α)) (k : String) (v : α) :
    List (String × α) :=
  if (recGet m k).isSome then
    m.map (fun p => if p.1 == k then (p.1, v) else p)
  else
    m ++ [(k, v)]

/-- JS increment obj[k]++ on a numeric record (line 265 of
src/index.ts); keys of a JS object are unique, so updating every
matching entry is the in-place update of the single entry. -/
def recInc (m : List (String × Nat)) (k : String) : List (String × Nat) :=
  m.map (fun p => if p.1 == k then (p.1, p.2 + 1) else p)

/-- new Map(toolDefinitions.map(t => [t.name, t])) at line 55 of
src/index.ts: the Map constructor inserts the entries in order, later
entries overwriting earlier ones with the same key. -/
def buildToolMap (tools : List ToolDef) : List (String × ToolDef) :=
  tools.foldl (fun acc t => recSet acc t.name t) []

/-- toolMap.get(tool) at line 150 of src/index.ts. -/
def toolMapGet (tools : List ToolDef) (name : String) : Option ToolDef :=
  recGet (buildToolMap tools) name

/-- The last tool of the list carrying a given name: what a JS Map
built from the list actually stores under that name. -/
def lastWithName (tools : List ToolDef) (name : String) : Option ToolDef :=
  tools.reverse.find? (fun t => t.name == name)

/-- The mutable stats record of src/index.ts lines 246-255:
raw counters plus the accumulated response time of successful requests
and the per-tool usage record. -/
structure Stats where
  totalRequests : Nat
  successfulRequests : Nat
  totalResponseTime : Nat
  toolUsage : List (String × Nat)
deriving DecidableEq, Repr

/-- serverTools.reduce((acc, tool) => ... acc[tool] = 0 ..., line
251-254 of src/index.ts): every registered tool name is seeded with a
zero usage count. -/
def initToolUsage (serverTools : List String) : List (String × Nat) :=
  serverTools.foldl (fun acc tool => recSet acc tool 0) []

/-- The initial stats object (src/index.ts lines 246-255). -/
def initStats (serverTools : List String) : Stats :=
  { totalRequests := 0
    successfulRequests := 0
    totalResponseTime := 0
    toolUsage := initToolUsage serverTools }

/-- updateStats (src/index.ts lines 257-266): increment totalRequests;
on success also increment successfulRequests and accumulate the
duration; increment the usage entry of the tool when one exists. -/
def updateStats (stats : Stats) (tool : String) (success : Bool)
    (duration : Nat) : Stats :=
  let s2 : Stats :=
    if success then
      { stats with
          totalRequests := stats.totalRequests + 1
          successfulRequests := stats.successfulRequests + 1
          totalResponseTime := stats.totalResponseTime + duration }
    else
      { stats with totalRequests := stats.totalRequests + 1 }
  if (recGet s2.toolUsage tool).isSome then
    { s2 with toolUsage := recInc s2.toolUsage tool }
  else
    s2

/-- Math.round(num / den) for natural num and positive natural den:
JavaScript rounds half up, so the value is the floor of
(num / den) + 1/2, i.e. (2 num + den) / (2 den) in Nat division. -/
def jsRound (num den : Nat) : Nat :=
  (2 * num + den) / (2 * den)

/-- The published ServerStats snapshot (src/index.ts lines 268-276):
failedRequests and averageResponseTime are derived fields. -/
structure ServerStats where
  totalRequests : Nat
  successfulRequests : Nat
  failedRequests : Nat
  averageResponseTime : Nat
  toolUsage : List (String × Nat)
deriving DecidableEq, Repr

/-- The snapshot computed at lines 268-276 of src/index.ts. -/
def publishStats (stats : Stats) : ServerStats :=
  { totalRequests := stats.totalRequests
    successfulRequests := stats.successfulRequests
    failedRequests := stats.totalRequests - stats.successfulRequests
    averageResponseTime :=
      if stats.successfulRequests > 0 then
        jsRound stats.totalResponseTime stats.successfulRequests
      else 0
    toolUsage := stats.toolUsage }

/-- The three kinds of faults caught by the inner catch block of the
HTTP handler (src/index.ts lines 152-162 and 211): the unknown-tool
throw, the invalid-parameters throw, and a rejection from the handler
itself. -/
inductive DispatchError where
  | unknownTool (name : String)
  | invalidParams (details : String)
  | handlerFault (description : String)
deriving DecidableEq, Repr

/-- The message of the fault, as the spec names it in the
DispatchResult envelope. -/
def DispatchError.message : DispatchError → String
  | .unknownTool name => "Unknown tool: " ++ name
  | .invalidParams details => "Invalid parameters: " ++ details
  | .handlerFault description => description

/-- The string interpolation of the caught value used by the HTTP
handler: a value thrown with new Error(m) interpolates to
"Error: " followed by m, a handler rejection interpolates to its own
description. -/
def DispatchError.jsDescription : DispatchError → String
  | .unknownTool name => "Error: Unknown tool: " ++ name
  | .invalidParams details => "Error: Invalid parameters: " ++ details
  | .handlerFault description => description

/-- The uniform dispatch envelope of the spec: ok with a payload, or
not ok with the fault that the inner catch block received. -/
structure DispatchResult where
  ok : Bool
  payload : Option ToolResult
  error : Option DispatchError
deriving DecidableEq, Repr

/-- The errorMessage field of the envelope. -/
def DispatchResult.errorMessage (r : DispatchResult) : Option String :=
  r.error.map DispatchError.message

/-- Wall-clock milliseconds spent in each phase of one dispatch:
registry lookup, zod validation, handler execution. -/
structure PhaseTimes where
  lookupMs : Nat
  validateMs : Nat
  handlerMs : Nat
deriving DecidableEq, Repr

/-- The dispatch core of the HTTP handler (src/index.ts lines
147-219).  startTime is Date.now() sampled at line 148, before the
registry lookup at line 150 and the validation at line 159; the clock
then advances by the duration of each phase, and the second Date.now()
at line 167 reads the advanced clock, so the recorded duration is the
elapsed time of lookup, validation and handler together.  On any caught
fault the catch block at line 211 calls updateStats(tool, false) with
the default duration 0. -/
def dispatch (tools : List ToolDef) (stats : Stats) (tool : String)
    (params : Params) (tm : PhaseTimes) (clock : Nat) :
    DispatchResult × Stats :=
  let startTime := clock
  let clockAfterLookup := clock + tm.lookupMs
  match toolMapGet tools tool with
  | none =>
      ({ ok := false, payload := none, error := some (.unknownTool tool) },
        updateStats stats tool false 0)
  | some toolDef =>
      let clockAfterValidate := clockAfterLookup + tm.validateMs
      match toolDef.validate params with
      | .error details =>
          ({ ok := false, payload := none,
              error := some (.invalidParams details) },
            updateStats stats tool false 0)
      | .ok validatedParams =>
          let endTime := clockAfterValidate + tm.handlerMs
          match toolDef.handler validatedParams with
          | .throws description =>
              ({ ok := false, payload := none,
                  error := some (.handlerFault description) },
                updateStats stats tool false 0)
          | .returns result =>
              let duration := endTime - startTime
              ({ ok := true, payload := some result, error := none },
                updateStats stats tool true duration)

/-- An HTTP response of the handler: status code, the error body of
the failure branches, and the tool result of the success branch (the
handler payload rendered at lines 180-209, one level of textual JSON
possibly unwrapped, a shape question no property here inspects). -/
structure HttpResponse where
  status : Nat
  errorBody : Option String
  payload : Option ToolResult
deriving DecidableEq, Repr

/-- Rendering the dispatch envelope as the HTTP response (src/index.ts
lines 180-218): success writes 200 with the result, a caught fault
writes 400 with the interpolated fault. -/
def renderDispatch (r : DispatchResult) : HttpResponse :=
  match r.error with
  | some e =>
      { status := 400
        errorBody := some ("Error executing tool: " ++ e.jsDescription)
        payload := none }
  | none =>
      { status := 200, errorBody := none, payload := r.payload }

/-- A tracked client connection (ClientConnection of src/types.ts, as
populated by updateConnections at lines 287-293 of src/index.ts).
Timestamps are Int milliseconds. -/
structure ClientConnection where
  id : String
  ip : Option String
  connectedAt : Int
  lastActivity : Int
  requestCount : Nat
deriving DecidableEq, Repr

/-- The five-minute retention window of line 300 of src/index.ts. -/
def RETENTION_MS : Int := 5 * 60 * 1000

/-- updateConnections (src/index.ts lines 283-305): create or touch
the entry of the given client, then delete every entry whose
lastActivity is strictly older than five minutes before now. -/
def updateConnections (connections : List (String × ClientConnection))
    (clientId : String) (clientIp : Option String) (now : Int) :
    List (String × ClientConnection) :=
  let touched : List (String × ClientConnection) :=
    match recGet connections clientId with
    | none =>
        connections ++ [(clientId,
          { id := clientId
            ip := clientIp
            connectedAt := now
            lastActivity := now
            requestCount := 1 })]
    | some _ =>
        connections.map (fun p =>
          if p.1 == clientId then
            (p.1, { p.2 with
                      lastActivity := now
                      requestCount := p.2.requestCount + 1 })
          else p)
  let fiveMinutesAgo := now - RETENTION_MS
  touched.filter (fun p => !(decide (p.2.lastActivity < fiveMinutesAgo)))

/-- Result of JSON.parse on the request body followed by the
destructuring of tool and params (line 139-140 of src/index.ts):
either the parsed fields (params possibly absent) or a parse failure
with its details.  JSON.parse is an external builtin, embedded as this
outcome. -/
inductive ParseOutcome where
  | parsed (tool : String) (params : Option Params)
  | fail (details : String)

/-- Process-wide mutable state touched by one HTTP request: the stats
record and the connection record. -/
structure ServerState where
  stats : Stats
  connections : List (String × ClientConnection)
deriving Repr

/-- The one-megabyte body ceiling of line 122 of src/index.ts. -/
def MAX_BODY_SIZE : Nat := 1024 * 1024

/-- The HTTP POST handler (src/index.ts lines 120-224).  A body larger
than the ceiling is answered 413 while the request is destroyed, so
the end handler returns before parsing; a parse failure is answered
400 by the outer catch before the connection tracker or the dispatcher
runs; otherwise the tracker is touched and the dispatch core runs,
with absent params defaulting to the empty object at validation
(params or empty, line 159). -/
def handlePost (st : ServerState) (tools : List ToolDef)
    (bodySize : Nat) (body : ParseOutcome) (clientId : String)
    (clientIp : Option String) (now : Int) (tm : PhaseTimes)
    (clock : Nat) : HttpResponse × ServerState :=
  if bodySize > MAX_BODY_SIZE then
    ({ status := 413
       errorBody := some "Request entity too large"
       payload := none }, st)
  else
    match body with
    | .fail details =>
        ({ status := 400
           errorBody := some ("Parsing error: " ++ details)
           payload := none }, st)
    | .parsed tool params =>
        let connections := updateConnections st.connections clientId clientIp now
        let step := dispatch tools st.stats tool (params.getD []) tm clock
        (renderDispatch step.1,
          { stats := step.2, connections := connections })

/-- One dispatch call of a trace: the requested tool name, the raw
parameters, and the wall-clock phase durations of this call. -/
structure CallSpec where
  tool : String
  params : Params
  times : PhaseTimes

/-- The stats after one dispatch call (the result component dropped).
The clock origin does not matter for the stats, so it is fixed at 0. -/
def dispatchStep (tools : List ToolDef) (stats : Stats) (c : CallSpec) :
    Stats :=
  (dispatch tools stats c.tool c.params c.times 0).2

/-- The stats after a finite trace of dispatch calls. -/
def runCalls (tools : List ToolDef) (stats : Stats)
    (calls : List CallSpec) : Stats :=
  calls.foldl (dispatchStep tools) stats

/-- The envelope of a call: the result component of dispatch does not
depend on the stats it threads, so it is read off a scratch run. -/
def callResult (tools : List ToolDef) (c : CallSpec) : DispatchResult :=
  (dispatch tools (initStats []) c.tool c.params c.times 0).1

/-- The duration the tracker records for a call: on a successful call
the response-time accumulator starting from zero holds exactly the
recorded duration; a failed call records none. -/
def callDuration (tools : List ToolDef) (c : CallSpec) : Option Nat :=
  if (callResult tools c).ok then
    some (dispatchStep tools (initStats []) c).totalResponseTime
  else none

/-- The recorded durations of the successful calls of a trace. -/
def successDurations (tools : List ToolDef) (calls : List CallSpec) :
    List Nat :=
  calls.filterMap (callDuration tools)

/-- The rounded arithmetic mean of a list of durations, zero for the
empty list: the quantity the spec says averageResponseTime equals. -/
def roundedMean (l : List Nat) : Nat :=
  if l.length = 0 then 0 else jsRound l.sum l.length

/-! ### Association-list lemmas -/

theorem recGet_nil {α : Type} (k : String) :
    recGet ([] : List (String × α)) k = none := rfl

/-- Lookup after a key-preserving in-place update of every entry with
key k: the first entry with key k2 is found at the same position, its
value transformed exactly when its key also matches k. -/
theorem recGet_map_upd {α : Type} (m : List (String × α)) (k k2 : String)
    (g : α → α) :
    recGet (m.map (fun p => if p.1 == k then (p.1, g p.2) else p)) k2 =
      (m.find? (fun p => p.1 == k2)).map
        (fun p => if p.1 == k then g p.2 else p.2) := by
  induction m with
  | nil => rfl
  | cons a l ih =>
    obtain ⟨a1, a2⟩ := a
    unfold recGet at ih ⊢
    rw [List.map_cons]
    by_cases h1 : a1 = k
    · subst h1
      by_cases h2 : a1 = k2
      · subst h2
        simp
      · have hb : (a1 == k2) = false := beq_eq_false_iff_ne.mpr h2
        simp only [beq_self_eq_true, if_true]
        rw [List.find?_cons_of_neg _ (by simp [hb]),
          List.find?_cons_of_neg _ (by simp [hb])]
        exact ih
    · have hb1 : (a1 == k) = false := beq_eq_false_iff_ne.mpr h1
      simp only [hb1, Bool.false_eq_true, if_false]
      by_cases h2 : a1 = k2
      · subst h2
        rw [List.find?_cons_of_pos _ (by simp),
          List.find?_cons_of_pos _ (by simp)]
        simp [hb1, h1]
      · have hb2 : (a1 == k2) = false := beq_eq_false_iff_ne.mpr h2
        rw [List.find?_cons_of_neg _ (by simp [hb2]),
          List.find?_cons_of_neg _ (by simp [hb2])]
        exact ih

theorem recGet_recSet {α : Type} (m : List (String × α)) (k : String)
    (v : α) (k2 : String) :
    recGet (recSet m k v) k2 = if k = k2 then some v else recGet m k2 := by
  unfold recSet
  cases hf : m.find? (fun p => p.1 == k) with
  | none =>
    have hg : recGet m k = none := by simp [recGet, hf]
    rw [hg]
    simp only [Option.isSome_none, Bool.false_eq_true, if_false]
    unfold recGet
    rw [List.find?_append]
    by_cases hk : k = k2
    · subst hk
      rw [hf]
      simp
    · have hone : List.find? (fun p => p.1 == k2) [(k, v)] = none := by
        simp [beq_eq_false_iff_ne.mpr hk]
      rw [hone]
      simp [hk]
  | some p =>
    have hg : recGet m k = some p.2 := by simp [recGet, hf]
    rw [hg]
    simp only [Option.isSome_some, if_true]
    have h := recGet_map_upd m k k2 (fun _ => v)
    simp only [] at h
    rw [h]
    by_cases hk : k = k2
    · subst hk
      rw [hf]
      have hpk := List.find?_some hf
      have hp1 : p.1 = k := by simpa using hpk
      simp [hp1]
    · simp only [if_neg hk]
      unfold recGet
      cases hf2 : m.find? (fun p => p.1 == k2) with
      | none => rfl
      | some q =>
        have hq := List.find?_some hf2
        have hq2 : q.1 = k2 := by simpa using hq
        have hqk : (q.1 == k) = false :=
          beq_eq_false_iff_ne.mpr (by rw [hq2]; exact fun hh => hk hh.symm)
        simp [hqk]
        intro hcontra
        exact absurd (hcontra.symm.trans hq2) hk

theorem recGet_recInc (m : List (String × Nat)) (k k2 : String) :
    recGet (recInc m k) k2 =
      (m.find? (fun p => p.1 == k2)).map
        (fun p => if p.1 == k then p.2 + 1 else p.2) :=
  recGet_map_upd m k k2 (fun u => u + 1)

theorem recGet_recInc_self (m : List (String × Nat)) (k : String) (u : Nat)
    (h : recGet m k = some u) : recGet (recInc m k) k = some (u + 1) := by
  rw [recGet_recInc]
  unfold recGet at h
  cases hf : m.find? (fun p => p.1 == k) with
  | none => simp [hf] at h
  | some p =>
    have hpk := List.find?_some hf
    have hp1 : p.1 = k := by simpa using hpk
    simp [hf, hp1] at h ⊢
    omega

theorem recGet_recInc_none (m : List (String × Nat)) (k k2 : String)
    (h : recGet m k2 = none) : recGet (recInc m k) k2 = none := by
  rw [recGet_recInc]
  unfold recGet at h
  cases hf : m.find? (fun p => p.1 == k2) with
  | none => rfl
  | some p => simp [hf] at h

theorem recGet_recInc_isSome (m : List (String × Nat)) (k k2 : String) :
    (recGet (recInc m k) k2).isSome = (recGet m k2).isSome := by
  rw [recGet_recInc]
  unfold recGet
  cases hf : m.find? (fun p => p.1 == k2) <;> simp

/-! ### Registry lemmas -/

theorem recGet_foldl_zero (names : List String)
    (acc : List (String × Nat)) (n : String) :
    recGet (names.foldl (fun a t => recSet a t 0) acc) n =
      if n ∈ names then some 0 else recGet acc n := by
  induction names generalizing acc with
  | nil => simp
  | cons t ts ih =>
    rw [List.foldl_cons, ih]
    by_cases h : n ∈ ts
    · simp [h]
    · by_cases h2 : t = n
      · simp [h, h2, recGet_recSet]
      · have h2' : ¬ n = t := fun hh => h2 hh.symm
        simp [h, h2, h2', recGet_recSet]

theorem recGet_initToolUsage (names : List String) (n : String) :
    recGet (initToolUsage names) n = if n ∈ names then some 0 else none := by
  unfold initToolUsage
  rw [recGet_foldl_zero]
  rfl

theorem recGet_foldl_toolMap (tools : List ToolDef)
    (acc : List (String × ToolDef)) (name : String) :
    recGet (tools.foldl (fun a t => recSet a t.name t) acc) name =
      match tools.reverse.find? (fun t => t.name == name) with
      | some t => some t
      | none => recGet acc name := by
  induction tools using List.reverseRecOn generalizing acc with
  | nil => simp
  | append_singleton l a ih =>
    rw [List.foldl_append, List.foldl_cons, List.foldl_nil, recGet_recSet]
    rw [List.reverse_append]
    simp only [List.reverse_cons, List.reverse_nil, List.nil_append,
      List.singleton_append, List.find?_cons]
    by_cases h : a.name = name
    · simp [h]
    · have hb : (a.name == name) = false := by simp [h]
      simp only [hb, if_neg h, cond_false]
      exact ih acc

/-- The registry built with the JS Map keeps, under every name, the
last tool of the definition list carrying that name. -/
theorem toolMapGet_eq_lastWithName (tools : List ToolDef) (name : String) :
    toolMapGet tools name = lastWithName tools name := by
  unfold toolMapGet buildToolMap lastWithName
  rw [recGet_foldl_toolMap]
  cases tools.reverse.find? (fun t => t.name == name) <;> rfl

theorem toolMapGet_eq_none_of_not_mem (tools : List ToolDef) (name : String)
    (h : name ∉ tools.map (fun t => t.name)) : toolMapGet tools name = none := by
  rw [toolMapGet_eq_lastWithName]
  unfold lastWithName
  rw [List.find?_eq_none]
  intro t ht
  have : t.name ∈ tools.map (fun t => t.name) :=
    List.mem_map_of_mem _ (List.mem_reverse.mp ht)
  simp only [beq_iff_eq]
  intro heq
  exact h (heq ▸ this)

theorem toolMapGet_isSome_of_mem (tools : List ToolDef) (name : String)
    (h : name ∈ tools.map (fun t => t.name)) :
    (toolMapGet tools name).isSome := by
  rw [toolMapGet_eq_lastWithName]
  unfold lastWithName
  rw [List.find?_isSome]
  obtain ⟨t, ht, heq⟩ := List.mem_map.mp h
  exact ⟨t, List.mem_reverse.mpr ht, by simp [heq]⟩

/-- Filtering keeps the first match untouched when every element that
the search predicate accepts also passes the filter. -/
theorem find?_filter_of_imp {α : Type} (l : List α) (p q : α → Bool)
    (h : ∀ x ∈ l, p x = true → q x = true) :
    (l.filter q).find? p = l.find? p := by
  induction l with
  | nil => rfl
  | cons a t ih =>
    have hrest : ∀ x ∈ t, p x = true → q x = true :=
      fun x hx hpx => h x (List.mem_cons_of_mem a hx) hpx
    by_cases hq : q a = true
    · rw [List.filter_cons_of_pos (by simpa using hq)]
      by_cases hp : p a = true
      · rw [List.find?_cons_of_pos _ (by simpa using hp),
          List.find?_cons_of_pos _ (by simpa using hp)]
      · rw [List.find?_cons_of_neg _ (by simpa using hp),
          List.find?_cons_of_neg _ (by simpa using hp)]
        exact ih hrest
    · have hp : ¬ p a = true :=
        fun hpa => hq (h a (List.mem_cons_self a t) hpa)
      rw [List.filter_cons_of_neg (by simpa using hq),
        List.find?_cons_of_neg _ (by simpa using hp)]
      exact ih hrest

/-! ### updateStats lemmas -/

theorem updateStats_totalRequests (s : Stats) (t : String) (b : Bool)
    (d : Nat) : (updateStats s t b d).totalRequests = s.totalRequests + 1 := by
  unfold updateStats
  cases b <;> simp <;> split <;> rfl

theorem updateStats_successfulRequests (s : Stats) (t : String) (b : Bool)
    (d : Nat) : (updateStats s t b d).successfulRequests =
      s.successfulRequests + (if b then 1 else 0) := by
  unfold updateStats
  cases b <;> simp <;> split <;> rfl

theorem updateStats_totalResponseTime (s : Stats) (t : String) (b : Bool)
    (d : Nat) : (updateStats s t b d).totalResponseTime =
      s.totalResponseTime + (if b then d else 0) := by
  unfold updateStats
  cases b <;> simp <;> split <;> rfl

theorem updateStats_toolUsage_of_none (s : Stats) (t : String) (b : Bool)
    (d : Nat) (h : recGet s.toolUsage t = none) :
    (updateStats s t b d).toolUsage = s.toolUsage := by
  unfold updateStats
  cases b <;> simp [h]

theorem updateStats_toolUsage_of_some (s : Stats) (t : String) (b : Bool)
    (d : Nat) (u : Nat) (h : recGet s.toolUsage t = some u) :
    recGet (updateStats s t b d).toolUsage t = some (u + 1) := by
  unfold updateStats
  cases b <;> simp [h, Option.isSome_some] <;>
    exact recGet_recInc_self _ _ _ h

theorem updateStats_toolUsage_none_preserved (s : Stats) (t : String)
    (b : Bool) (d : Nat) (k : String) (h : recGet s.toolUsage k = none) :
    recGet (updateStats s t b d).toolUsage k = none := by
  unfold updateStats
  by_cases hT : (recGet s.toolUsage t).isSome = true
  · cases b <;> simp [hT, recGet_recInc_none _ _ _ h]
  · cases b <;> simp [hT, h]

theorem updateStats_toolUsage_isSome_preserved (s : Stats) (t : String)
    (b : Bool) (d : Nat) (k : String)
    (h : (recGet s.toolUsage k).isSome) :
    (recGet (updateStats s t b d).toolUsage k).isSome := by
  unfold updateStats
  by_cases hT : (recGet s.toolUsage t).isSome = true
  · cases b <;> simp [hT, recGet_recInc_isSome, h]
  · cases b <;> simp [hT, h]

/-! ### dispatch lemmas -/

/-- The stats threaded out of one dispatch are exactly one updateStats
call: success with the elapsed duration of the three phases, failure
with duration 0. -/
theorem dispatch_snd_eq (tools : List ToolDef) (stats : Stats)
    (tool : String) (params : Params) (tm : PhaseTimes) (clock : Nat) :
    (dispatch tools stats tool params tm clock).2 =
      updateStats stats tool (dispatch tools stats tool params tm clock).1.ok
        (if (dispatch tools stats tool params tm clock).1.ok then
          tm.lookupMs + tm.validateMs + tm.handlerMs else 0) := by
  unfold dispatch
  cases h : toolMapGet tools tool with
  | none => simp
  | some td =>
    cases hv : td.validate params with
    | error details => simp [hv]
    | ok vp =>
      simp only [hv]
      cases hh : td.handler vp with
      | throws d => simp [hh]
      | returns r =>
        simp only [hh]
        simp only [if_true]
        congr 1
        omega

/-- The envelope of one dispatch depends neither on the stats it
threads nor on the clock origin. -/
theorem dispatch_fst_irrel (tools : List ToolDef) (s s' : Stats)
    (tool : String) (params : Params) (tm : PhaseTimes)
    (clock clock' : Nat) :
    (dispatch tools s tool params tm clock).1 =
      (dispatch tools s' tool params tm clock').1 := by
  unfold dispatch
  cases h : toolMapGet tools tool with
  | none => simp
  | some td =>
    cases hv : td.validate params with
    | error details => simp [hv]
    | ok vp =>
      simp only [hv]
      cases hh : td.handler vp with
      | throws d => simp [hh]
      | returns r => simp [hh]

/-- One trace step is one updateStats call with the outcome flag and
the recorded duration of the call. -/
theorem dispatchStep_eq (tools : List ToolDef) (s : Stats) (c : CallSpec) :
    dispatchStep tools s c =
      updateStats s c.tool (callResult tools c).ok
        ((callDuration tools c).getD 0) := by
  unfold dispatchStep callDuration callResult
  rw [dispatch_snd_eq]
  have hok : (dispatch tools s c.tool c.params c.times 0).1.ok =
      (dispatch tools (initStats []) c.tool c.params c.times 0).1.ok := by
    rw [dispatch_fst_irrel tools s (initStats []) c.tool c.params c.times 0 0]
  rw [hok]
  cases hb : (dispatch tools (initStats []) c.tool c.params c.times 0).1.ok with
  | false => simp
  | true =>
    simp only [if_true]
    congr 1
    unfold dispatchStep
    rw [dispatch_snd_eq, hb]
    rw [updateStats_totalResponseTime]
    simp [initStats]

/-! ### Trace lemmas -/

theorem runCalls_cons (tools : List ToolDef) (s : Stats) (c : CallSpec)
    (cs : List CallSpec) :
    runCalls tools s (c :: cs) = runCalls tools (dispatchStep tools s c) cs :=
  rfl

theorem callDuration_isSome (tools : List ToolDef) (c : CallSpec) :
    (callDuration tools c).isSome = (callResult tools c).ok := by
  unfold callDuration
  cases h : (callResult tools c).ok <;> simp [h]

theorem runCalls_totalRequests (tools : List ToolDef)
    (calls : List CallSpec) : ∀ s : Stats,
    (runCalls tools s calls).totalRequests = s.totalRequests + calls.length := by
  induction calls with
  | nil => intro s; simp [runCalls]
  | cons c cs ih =>
    intro s
    rw [runCalls_cons, ih, dispatchStep_eq, updateStats_totalRequests]
    simp only [List.length_cons]
    omega

theorem runCalls_successfulRequests (tools : List ToolDef)
    (calls : List CallSpec) : ∀ s : Stats,
    (runCalls tools s calls).successfulRequests =
      s.successfulRequests + (successDurations tools calls).length := by
  induction calls with
  | nil => intro s; simp [runCalls, successDurations]
  | cons c cs ih =>
    intro s
    rw [runCalls_cons, ih, dispatchStep_eq, updateStats_successfulRequests]
    unfold successDurations
    rw [List.filterMap_cons]
    cases hd : callDuration tools c with
    | none =>
      have hb : (callResult tools c).ok = false := by
        have hiso := callDuration_isSome tools c
        rw [hd] at hiso
        simpa using hiso.symm
      simp [hb]
    | some d0 =>
      have hb : (callResult tools c).ok = true := by
        have hiso := callDuration_isSome tools c
        rw [hd] at hiso
        simpa using hiso.symm
      simp [hb]
      omega

theorem runCalls_totalResponseTime (tools : List ToolDef)
    (calls : List CallSpec) : ∀ s : Stats,
    (runCalls tools s calls).totalResponseTime =
      s.totalResponseTime + (successDurations tools calls).sum := by
  induction calls with
  | nil => intro s; simp [runCalls, successDurations]
  | cons c cs ih =>
    intro s
    rw [runCalls_cons, ih, dispatchStep_eq, updateStats_totalResponseTime]
    unfold successDurations
    rw [List.filterMap_cons]
    cases hd : callDuration tools c with
    | none =>
      have hb : (callResult tools c).ok = false := by
        have hiso := callDuration_isSome tools c
        rw [hd] at hiso
        simpa using hiso.symm
      simp [hb]
    | some d0 =>
      have hb : (callResult tools c).ok = true := by
        have hiso := callDuration_isSome tools c
        rw [hd] at hiso
        simpa using hiso.symm
      simp [hb, hd]
      omega

theorem successDurations_length_le (tools : List ToolDef)
    (calls : List CallSpec) :
    (successDurations tools calls).length ≤ calls.length :=
  List.length_filterMap_le _ _

theorem runCalls_succ_le_total (tools : List ToolDef)
    (calls : List CallSpec) (s : Stats)
    (h : s.successfulRequests ≤ s.totalRequests) :
    (runCalls tools s calls).successfulRequests ≤
      (runCalls tools s calls).totalRequests := by
  rw [runCalls_totalRequests, runCalls_successfulRequests]
  have hle := successDurations_length_le tools calls
  omega

theorem runCalls_toolUsage_none (tools : List ToolDef)
    (calls : List CallSpec) (k : String) : ∀ s : Stats,
    recGet s.toolUsage k = none →
    recGet (runCalls tools s calls).toolUsage k = none := by
  induction calls with
  | nil => intro s h; exact h
  | cons c cs ih =>
    intro s h
    rw [runCalls_cons]
    refine ih _ ?_
    rw [dispatchStep_eq]
    exact updateStats_toolUsage_none_preserved _ _ _ _ _ h

theorem runCalls_toolUsage_isSome (tools : List ToolDef)
    (calls : List CallSpec) (k : String) : ∀ s : Stats,
    (recGet s.toolUsage k).isSome →
    (recGet (runCalls tools s calls).toolUsage k).isSome := by
  induction calls with
  | nil => intro s h; exact h
  | cons c cs ih =>
    intro s h
    rw [runCalls_cons]
    refine ih _ ?_
    rw [dispatchStep_eq]
    exact updateStats_toolUsage_isSome_preserved _ _ _ _ _ h

theorem runCalls_append (tools : List ToolDef) (s : Stats)
    (calls1 calls2 : List CallSpec) :
    runCalls tools s (calls1 ++ calls2) =
      runCalls tools (runCalls tools s calls1) calls2 := by
  unfold runCalls
  rw [List.foldl_append]

/-! ### Connection-tracker lemmas -/

/-- updateConnections with its let bindings inlined. -/
theorem updateConnections_eq (conns : List (String × ClientConnection))
    (clientId : String) (clientIp : Option String) (now : Int) :
    updateConnections conns clientId clientIp now =
      ((match recGet conns clientId with
        | none => conns ++ [(clientId,
            { id := clientId, ip := clientIp, connectedAt := now,
              lastActivity := now, requestCount := 1 })]
        | some _ => conns.map (fun p =>
            if p.1 == clientId then
              (p.1, { p.2 with
                        lastActivity := now
                        requestCount := p.2.requestCount + 1 })
            else p) : List (String × ClientConnection))).filter
        (fun p => !(decide (p.2.lastActivity < now - RETENTION_MS))) := rfl

theorem not_lt_retention (now : Int) : ¬ (now < now - RETENTION_MS) := by
  simp [RETENTION_MS]

/-- A first request from an unknown identifier creates its entry. -/
theorem recGet_updateConnections_new
    (conns : List (String × ClientConnection)) (id : String)
    (ip : Option String) (now : Int) (h : recGet conns id = none) :
    recGet (updateConnections conns id ip now) id =
      some { id := id, ip := ip, connectedAt := now,
             lastActivity := now, requestCount := 1 } := by
  have hnone : conns.find? (fun p => p.1 == id) = none := by
    unfold recGet at h
    cases hf : conns.find? (fun p => p.1 == id) with
    | none => rfl
    | some p => rw [hf] at h; simp at h
  rw [updateConnections_eq, h]
  unfold recGet
  rw [find?_filter_of_imp]
  · rw [List.find?_append, hnone]
    simp
  · intro x hx hpx
    rcases List.mem_append.mp hx with hxc | hxf
    · exact absurd hpx (List.find?_eq_none.mp hnone x hxc)
    · have hx2 : x = (id,
          { id := id, ip := ip, connectedAt := now,
            lastActivity := now, requestCount := 1 }) := by
        simpa using hxf
      subst hx2
      simp [not_lt_retention now]

/-- A repeat request from a known identifier only advances
lastActivity and requestCount; id, ip and connectedAt are kept. -/
theorem recGet_updateConnections_touch
    (conns : List (String × ClientConnection)) (id : String)
    (ip2 : Option String) (now : Int) (c : ClientConnection)
    (h : recGet conns id = some c) :
    recGet (updateConnections conns id ip2 now) id =
      some { id := c.id, ip := c.ip, connectedAt := c.connectedAt,
             lastActivity := now, requestCount := c.requestCount + 1 } := by
  obtain ⟨p0, hf0, hp0⟩ : ∃ p0, conns.find? (fun p => p.1 == id) = some p0 ∧
      p0.2 = c := by
    unfold recGet at h
    cases hf : conns.find? (fun p => p.1 == id) with
    | none => rw [hf] at h; simp at h
    | some p => rw [hf] at h; exact ⟨p, rfl, by simpa using h⟩
  have hp0k := List.find?_some hf0
  rw [updateConnections_eq, h]
  unfold recGet
  rw [find?_filter_of_imp]
  · have hupd := recGet_map_upd conns id id
      (fun c0 => { c0 with
                     lastActivity := now
                     requestCount := c0.requestCount + 1 })
    unfold recGet at hupd
    rw [hupd, hf0]
    simp [hp0k, hp0]
    intro hcontra
    exact absurd (by simpa using hp0k) hcontra
  · intro x hx hpx
    obtain ⟨p, hp, hfx⟩ := List.mem_map.mp hx
    by_cases hpk : (p.1 == id) = true
    · rw [if_pos hpk] at hfx
      subst hfx
      simp [not_lt_retention now]
    · rw [if_neg hpk] at hfx
      subst hfx
      exact absurd hpx hpk

/-! ### Test fixtures

Concrete registries and calls used to instantiate the universally
quantified theorems below on closed inputs.  The tool names and
result shapes mirror createToolDefinitions of src/server.ts: a tool
that resolves with a plain result, a tool whose handler rejects, and a
tool that resolves with an isError-flagged result the way create_blog
always does. -/

def demoOkTool : ToolDef :=
  { name := "list_blogs"
    description := "Lists all accessible blogs"
    validate := fun p => .ok p
    handler := fun _ => .returns { text := "demo blogs", isError := false } }

def demoFaultTool : ToolDef :=
  { name := "get_blog"
    description := "Retrieves details of a specific blog"
    validate := fun p => .ok p
    handler := fun _ => .throws "Error: network unreachable" }

def demoErrorTool : ToolDef :=
  { name := "create_blog"
    description := "Creates a new blog"
    validate := fun p => .ok p
    handler := fun _ =>
      .returns { text := "Blog creation is not supported", isError := true } }

def demoRegistry : List ToolDef := [demoOkTool, demoFaultTool, demoErrorTool]

def demoNames : List String := demoRegistry.map (fun t => t.name)

def demoTimes : PhaseTimes := { lookupMs := 1, validateMs := 2, handlerMs := 5 }

def demoCall : CallSpec :=
  { tool := "list_blogs", params := [], times := demoTimes }

/-! ### Claims -/

/-- C2: after any finite sequence of dispatch calls, the published
stats satisfy failedRequests = totalRequests - successfulRequests (as
integers), and the three published counters at any prefix of the
sequence are bounded by their values at the end of the sequence, so
all three are non-decreasing over the sequence. -/
theorem stats_counter_invariant (tools : List ToolDef)
    (serverTools : List String) (calls calls1 calls2 : List CallSpec)
    (h : calls = calls1 ++ calls2) :
    ((publishStats (runCalls tools (initStats serverTools) calls)).failedRequests : Int) =
      ((publishStats (runCalls tools (initStats serverTools) calls)).totalRequests : Int) -
      ((publishStats (runCalls tools (initStats serverTools) calls)).successfulRequests : Int) ∧
    (publishStats (runCalls tools (initStats serverTools) calls1)).totalRequests ≤
      (publishStats (runCalls tools (initStats serverTools) calls)).totalRequests ∧
    (publishStats (runCalls tools (initStats serverTools) calls1)).successfulRequests ≤
      (publishStats (runCalls tools (initStats serverTools) calls)).successfulRequests ∧
    (publishStats (runCalls tools (initStats serverTools) calls1)).failedRequests ≤
      (publishStats (runCalls tools (initStats serverTools) calls)).failedRequests := by
  subst h
  rw [runCalls_append]
  have h1t := runCalls_totalRequests tools calls1 (initStats serverTools)
  have h1s := runCalls_successfulRequests tools calls1 (initStats serverTools)
  have h2t := runCalls_totalRequests tools calls2
    (runCalls tools (initStats serverTools) calls1)
  have h2s := runCalls_successfulRequests tools calls2
    (runCalls tools (initStats serverTools) calls1)
  have hle1 := successDurations_length_le tools calls1
  have hle2 := successDurations_length_le tools calls2
  rw [show (initStats serverTools).totalRequests = 0 from rfl] at h1t
  rw [show (initStats serverTools).successfulRequests = 0 from rfl] at h1s
  simp only [publishStats]
  omega

theorem stats_counter_invariant_witness :
    ([demoCall] = [demoCall] ++ ([] : List CallSpec)) ∧
    (((publishStats (runCalls demoRegistry (initStats demoNames) [demoCall])).failedRequests : Int) =
      ((publishStats (runCalls demoRegistry (initStats demoNames) [demoCall])).totalRequests : Int) -
      ((publishStats (runCalls demoRegistry (initStats demoNames) [demoCall])).successfulRequests : Int) ∧
    (publishStats (runCalls demoRegistry (initStats demoNames) [demoCall])).totalRequests ≤
      (publishStats (runCalls demoRegistry (initStats demoNames) [demoCall])).totalRequests ∧
    (publishStats (runCalls demoRegistry (initStats demoNames) [demoCall])).successfulRequests ≤
      (publishStats (runCalls demoRegistry (initStats demoNames) [demoCall])).successfulRequests ∧
    (publishStats (runCalls demoRegistry (initStats demoNames) [demoCall])).failedRequests ≤
      (publishStats (runCalls demoRegistry (initStats demoNames) [demoCall])).failedRequests) :=
  ⟨rfl, stats_counter_invariant demoRegistry demoNames
    [demoCall] [demoCall] [] rfl⟩

/-- C4: the published averageResponseTime equals the rounded
arithmetic mean of the recorded durations of the successful dispatches
of the trace (failed dispatches contribute no duration), and equals 0
whenever successfulRequests is 0.  JavaScript Math.round rounds half
up. -/
theorem average_response_time_mean (tools : List ToolDef)
    (serverTools : List String) (calls : List CallSpec) :
    (publishStats (runCalls tools (initStats serverTools) calls)).averageResponseTime =
      roundedMean (successDurations tools calls) ∧
    (runCalls tools (initStats serverTools) calls).successfulRequests =
      (successDurations tools calls).length ∧
    ((runCalls tools (initStats serverTools) calls).successfulRequests = 0 →
      (publishStats (runCalls tools (initStats serverTools) calls)).averageResponseTime = 0) := by
  have hs0 : (runCalls tools (initStats serverTools) calls).successfulRequests =
      (successDurations tools calls).length := by
    rw [runCalls_successfulRequests]
    simp [initStats]
  have hr0 : (runCalls tools (initStats serverTools) calls).totalResponseTime =
      (successDurations tools calls).sum := by
    rw [runCalls_totalResponseTime]
    simp [initStats]
  refine ⟨?_, hs0, ?_⟩
  · simp only [publishStats, roundedMean, hs0, hr0]
    by_cases h0 : (successDurations tools calls).length = 0
    · simp [h0]
    · simp [h0, Nat.pos_of_ne_zero h0]
  · intro h
    simp [publishStats, h]

theorem average_response_time_mean_witness :
    (publishStats (runCalls demoRegistry (initStats demoNames) [demoCall])).averageResponseTime =
      roundedMean (successDurations demoRegistry [demoCall]) ∧
    (runCalls demoRegistry (initStats demoNames) [demoCall]).successfulRequests =
      (successDurations demoRegistry [demoCall]).length ∧
    ((runCalls demoRegistry (initStats demoNames) [demoCall]).successfulRequests = 0 →
      (publishStats (runCalls demoRegistry (initStats demoNames) [demoCall])).averageResponseTime = 0) :=
  average_response_time_mean demoRegistry demoNames [demoCall]

/-- C1: dispatching a name absent from the registry, in any reachable
stats state, returns an envelope with ok false and errorMessage
"Unknown tool: " followed by the name, increments totalRequests and
the published failedRequests by exactly one, and leaves the whole
toolUsage record unchanged. -/
theorem unknown_tool_dispatch (tools : List ToolDef)
    (calls : List CallSpec) (name : String) (params : Params)
    (tm : PhaseTimes) (clock : Nat)
    (h : name ∉ tools.map (fun t => t.name)) :
    (dispatch tools (runCalls tools (initStats (tools.map (fun t => t.name))) calls)
        name params tm clock).1.ok = false ∧
    (dispatch tools (runCalls tools (initStats (tools.map (fun t => t.name))) calls)
        name params tm clock).1.errorMessage = some ("Unknown tool: " ++ name) ∧
    (dispatch tools (runCalls tools (initStats (tools.map (fun t => t.name))) calls)
        name params tm clock).2.totalRequests =
      (runCalls tools (initStats (tools.map (fun t => t.name))) calls).totalRequests + 1 ∧
    (publishStats (dispatch tools (runCalls tools (initStats (tools.map (fun t => t.name))) calls)
        name params tm clock).2).failedRequests =
      (publishStats (runCalls tools (initStats (tools.map (fun t => t.name))) calls)).failedRequests + 1 ∧
    (dispatch tools (runCalls tools (initStats (tools.map (fun t => t.name))) calls)
        name params tm clock).2.toolUsage =
      (runCalls tools (initStats (tools.map (fun t => t.name))) calls).toolUsage := by
  have hnone := toolMapGet_eq_none_of_not_mem tools name h
  set s := runCalls tools (initStats (tools.map (fun t => t.name))) calls with hs
  have hu : recGet s.toolUsage name = none := by
    rw [hs]
    apply runCalls_toolUsage_none
    rw [show (initStats (tools.map (fun t => t.name))).toolUsage =
      initToolUsage (tools.map (fun t => t.name)) from rfl]
    rw [recGet_initToolUsage]
    simp [h]
  have hst : s.successfulRequests ≤ s.totalRequests := by
    rw [hs]
    apply runCalls_succ_le_total
    exact Nat.le_refl 0
  unfold dispatch
  rw [hnone]
  refine ⟨rfl, rfl, updateStats_totalRequests _ _ _ _, ?_,
    updateStats_toolUsage_of_none _ _ _ _ hu⟩
  simp [publishStats, updateStats_totalRequests,
    updateStats_successfulRequests]
  omega

theorem unknown_tool_dispatch_witness :
    ("nonexistent" ∉ demoRegistry.map (fun t => t.name)) ∧
    ((dispatch demoRegistry (runCalls demoRegistry (initStats (demoRegistry.map (fun t => t.name))) [])
        "nonexistent" [] demoTimes 0).1.ok = false ∧
    (dispatch demoRegistry (runCalls demoRegistry (initStats (demoRegistry.map (fun t => t.name))) [])
        "nonexistent" [] demoTimes 0).1.errorMessage = some ("Unknown tool: " ++ "nonexistent") ∧
    (dispatch demoRegistry (runCalls demoRegistry (initStats (demoRegistry.map (fun t => t.name))) [])
        "nonexistent" [] demoTimes 0).2.totalRequests =
      (runCalls demoRegistry (initStats (demoRegistry.map (fun t => t.name))) []).totalRequests + 1 ∧
    (publishStats (dispatch demoRegistry (runCalls demoRegistry (initStats (demoRegistry.map (fun t => t.name))) [])
        "nonexistent" [] demoTimes 0).2).failedRequests =
      (publishStats (runCalls demoRegistry (initStats (demoRegistry.map (fun t => t.name))) [])).failedRequests + 1 ∧
    (dispatch demoRegistry (runCalls demoRegistry (initStats (demoRegistry.map (fun t => t.name))) [])
        "nonexistent" [] demoTimes 0).2.toolUsage =
      (runCalls demoRegistry (initStats (demoRegistry.map (fun t => t.name))) []).toolUsage) :=
  ⟨by decide, unknown_tool_dispatch demoRegistry [] "nonexistent" [] demoTimes 0 (by decide)⟩

/-- C3: dispatching a registered name, in any reachable stats state
and whatever the outcome of the dispatch (success, validation failure
or handler fault), increments the toolUsage entry of that name and
totalRequests by exactly one. -/
theorem registered_tool_usage (tools : List ToolDef)
    (calls : List CallSpec) (n : String) (params : Params)
    (tm : PhaseTimes) (clock : Nat)
    (h : n ∈ tools.map (fun t => t.name)) :
    (dispatch tools (runCalls tools (initStats (tools.map (fun t => t.name))) calls)
        n params tm clock).2.totalRequests =
      (runCalls tools (initStats (tools.map (fun t => t.name))) calls).totalRequests + 1 ∧
    ∃ u, recGet (runCalls tools (initStats (tools.map (fun t => t.name))) calls).toolUsage n = some u ∧
      recGet (dispatch tools (runCalls tools (initStats (tools.map (fun t => t.name))) calls)
        n params tm clock).2.toolUsage n = some (u + 1) := by
  set s := runCalls tools (initStats (tools.map (fun t => t.name))) calls with hs
  have hsome : (recGet s.toolUsage n).isSome := by
    rw [hs]
    apply runCalls_toolUsage_isSome
    rw [show (initStats (tools.map (fun t => t.name))).toolUsage =
      initToolUsage (tools.map (fun t => t.name)) from rfl]
    rw [recGet_initToolUsage]
    simp [h]
  obtain ⟨u, hu⟩ := Option.isSome_iff_exists.mp hsome
  rw [dispatch_snd_eq]
  exact ⟨updateStats_totalRequests _ _ _ _,
    u, hu, updateStats_toolUsage_of_some _ _ _ _ u hu⟩

/-- C5 counterexample: with a registry containing the list_blogs
fixture and one dispatch whose lookup takes 1 ms, validation 2 ms and
handler 5 ms, the recorded duration is 8 ms, not the 5 ms the claim
(handler invocation only) predicts: the start timestamp is taken
before the registry lookup. -/
theorem duration_excludes_lookup_cex :
    (dispatch demoRegistry (initStats demoNames) "list_blogs" [] demoTimes 0).2.totalResponseTime =
      (initStats demoNames).totalResponseTime + 8 ∧
    ¬ ((dispatch demoRegistry (initStats demoNames) "list_blogs" [] demoTimes 0).2.totalResponseTime =
      (initStats demoNames).totalResponseTime + demoTimes.handlerMs) := by
  decide

/-- C5 (amended): for every successful dispatch the recorded duration
spans the registry lookup, the input validation and the handler
invocation together, because the start timestamp is sampled before
the registry lookup (src/index.ts line 148) and the end timestamp
after the handler resolves (line 167). -/
theorem duration_spans_all_phases (tools : List ToolDef) (s : Stats)
    (tool : String) (params : Params) (tm : PhaseTimes) (clock : Nat)
    (td : ToolDef) (vp : Params) (r : ToolResult)
    (h1 : toolMapGet tools tool = some td)
    (h2 : td.validate params = Except.ok vp)
    (h3 : td.handler vp = HandlerOutcome.returns r) :
    (dispatch tools s tool params tm clock).2.totalResponseTime =
      s.totalResponseTime + (tm.lookupMs + tm.validateMs + tm.handlerMs) := by
  unfold dispatch
  rw [h1]
  simp only [h2, h3]
  rw [updateStats_totalResponseTime]
  simp only [if_true]
  omega

theorem duration_spans_all_phases_witness :
    toolMapGet demoRegistry "list_blogs" = some demoOkTool ∧
    demoOkTool.validate [] = Except.ok [] ∧
    demoOkTool.handler [] =
      HandlerOutcome.returns { text := "demo blogs", isError := false } ∧
    (dispatch demoRegistry (initStats demoNames) "list_blogs" [] demoTimes 0).2.totalResponseTime =
      (initStats demoNames).totalResponseTime +
        (demoTimes.lookupMs + demoTimes.validateMs + demoTimes.handlerMs) :=
  ⟨rfl, rfl, rfl,
    duration_spans_all_phases demoRegistry (initStats demoNames)
      "list_blogs" [] demoTimes 0 demoOkTool []
      { text := "demo blogs", isError := false } rfl rfl rfl⟩

/-- C6: once the name resolves and validation passes, a handler that
completes normally with an error-flagged payload still yields ok true
carrying that payload, HTTP 200, and a request counted successful;
a handler that raises yields ok false with the fault description,
HTTP 400 with the "Error executing tool: " body, and a request counted
failed. -/
theorem handler_error_vs_fault (tools : List ToolDef) (s : Stats)
    (tool : String) (params : Params) (tm : PhaseTimes) (clock : Nat)
    (td : ToolDef) (vp : Params)
    (h1 : toolMapGet tools tool = some td)
    (h2 : td.validate params = Except.ok vp)
    (hst : s.successfulRequests ≤ s.totalRequests) :
    (∀ r : ToolResult, td.handler vp = HandlerOutcome.returns r →
      (dispatch tools s tool params tm clock).1.ok = true ∧
      (dispatch tools s tool params tm clock).1.payload = some r ∧
      (renderDispatch (dispatch tools s tool params tm clock).1).status = 200 ∧
      (renderDispatch (dispatch tools s tool params tm clock).1).payload = some r ∧
      (dispatch tools s tool params tm clock).2.successfulRequests =
        s.successfulRequests + 1 ∧
      (publishStats (dispatch tools s tool params tm clock).2).failedRequests =
        (publishStats s).failedRequests) ∧
    (∀ msg : String, td.handler vp = HandlerOutcome.throws msg →
      (dispatch tools s tool params tm clock).1.ok = false ∧
      (dispatch tools s tool params tm clock).1.errorMessage = some msg ∧
      (renderDispatch (dispatch tools s tool params tm clock).1).status = 400 ∧
      (renderDispatch (dispatch tools s tool params tm clock).1).errorBody =
        some ("Error executing tool: " ++ msg) ∧
      (dispatch tools s tool params tm clock).2.successfulRequests =
        s.successfulRequests ∧
      (publishStats (dispatch tools s tool params tm clock).2).failedRequests =
        (publishStats s).failedRequests + 1) := by
  constructor
  · intro r h3
    unfold dispatch
    rw [h1]
    simp only [h2, h3]
    refine ⟨by trivial, by trivial, by trivial, by trivial, ?_, ?_⟩
    · rw [updateStats_successfulRequests]
      simp
    · simp [publishStats, updateStats_totalRequests,
        updateStats_successfulRequests]
  · intro msg h3
    unfold dispatch
    rw [h1]
    simp only [h2, h3]
    refine ⟨by trivial, by trivial, by trivial, by trivial, ?_, ?_⟩
    · rw [updateStats_successfulRequests]
      simp
    · simp [publishStats, updateStats_totalRequests,
        updateStats_successfulRequests]
      omega

theorem handler_error_vs_fault_witness :
    ((dispatch demoRegistry (initStats demoNames) "create_blog" [] demoTimes 0).1.ok = true ∧
      (dispatch demoRegistry (initStats demoNames) "create_blog" [] demoTimes 0).1.payload =
        some { text := "Blog creation is not supported", isError := true } ∧
      (renderDispatch (dispatch demoRegistry (initStats demoNames) "create_blog" [] demoTimes 0).1).status = 200 ∧
      (renderDispatch (dispatch demoRegistry (initStats demoNames) "create_blog" [] demoTimes 0).1).payload =
        some { text := "Blog creation is not supported", isError := true } ∧
      (dispatch demoRegistry (initStats demoNames) "create_blog" [] demoTimes 0).2.successfulRequests =
        (initStats demoNames).successfulRequests + 1 ∧
      (publishStats (dispatch demoRegistry (initStats demoNames) "create_blog" [] demoTimes 0).2).failedRequests =
        (publishStats (initStats demoNames)).failedRequests) ∧
    ((dispatch demoRegistry (initStats demoNames) "get_blog" [] demoTimes 0).1.ok = false ∧
      (dispatch demoRegistry (initStats demoNames) "get_blog" [] demoTimes 0).1.errorMessage =
        some "Error: network unreachable" ∧
      (renderDispatch (dispatch demoRegistry (initStats demoNames) "get_blog" [] demoTimes 0).1).status = 400 ∧
      (renderDispatch (dispatch demoRegistry (initStats demoNames) "get_blog" [] demoTimes 0).1).errorBody =
        some ("Error executing tool: " ++ "Error: network unreachable") ∧
      (dispatch demoRegistry (initStats demoNames) "get_blog" [] demoTimes 0).2.successfulRequests =
        (initStats demoNames).successfulRequests ∧
      (publishStats (dispatch demoRegistry (initStats demoNames) "get_blog" [] demoTimes 0).2).failedRequests =
        (publishStats (initStats demoNames)).failedRequests + 1) :=
  ⟨(handler_error_vs_fault demoRegistry (initStats demoNames) "create_blog"
      [] demoTimes 0 demoErrorTool [] rfl rfl (Nat.le_refl 0)).1
      { text := "Blog creation is not supported", isError := true } rfl,
    (handler_error_vs_fault demoRegistry (initStats demoNames) "get_blog"
      [] demoTimes 0 demoFaultTool [] rfl rfl (Nat.le_refl 0)).2
      "Error: network unreachable" rfl⟩

/-- Two fixture tools sharing one name, distinguishable by their
descriptions. -/
def dupToolA : ToolDef :=
  { name := "dup_tool"
    description := "first"
    validate := fun p => .ok p
    handler := fun _ => .returns { text := "A", isError := false } }

def dupToolB : ToolDef :=
  { name := "dup_tool"
    description := "second"
    validate := fun p => .ok p
    handler := fun _ => .returns { text := "B", isError := false } }

/-- C7 counterexample: building the registry from two operations that
share a name does not fail at construction: the Map is built, and the
lookup silently yields the second operation, not the first. -/
theorem duplicate_name_cex :
    (toolMapGet [dupToolA, dupToolB] "dup_tool").map (fun t => t.description) =
      some "second" ∧
    ¬ ((toolMapGet [dupToolA, dupToolB] "dup_tool").map (fun t => t.description) =
      some "first") := by
  decide

/-- C7 (amended): registry construction from a sequence with duplicate
names succeeds silently and keeps, under each name, the last operation
of the sequence carrying that name (a later operation overwrites an
earlier one). -/
theorem duplicate_name_last_wins (tools : List ToolDef) (name : String)
    (t1 t2 : ToolDef) (h : t1.name = t2.name) :
    toolMapGet tools name = lastWithName tools name ∧
    toolMapGet [t1, t2] t1.name = some t2 := by
  refine ⟨toolMapGet_eq_lastWithName tools name, ?_⟩
  rw [toolMapGet_eq_lastWithName]
  unfold lastWithName
  rw [show ([t1, t2]).reverse = [t2, t1] from rfl]
  rw [List.find?_cons_of_pos _ (by simp [h])]

theorem duplicate_name_last_wins_witness :
    dupToolA.name = dupToolB.name ∧
    (toolMapGet [dupToolA, dupToolB] "other" =
      lastWithName [dupToolA, dupToolB] "other" ∧
    toolMapGet [dupToolA, dupToolB] dupToolA.name = some dupToolB) :=
  ⟨rfl, duplicate_name_last_wins [dupToolA, dupToolB] "other"
    dupToolA dupToolB rfl⟩

theorem registered_tool_usage_witness :
    ("get_blog" ∈ demoRegistry.map (fun t => t.name)) ∧
    ((dispatch demoRegistry (runCalls demoRegistry (initStats (demoRegistry.map (fun t => t.name))) [demoCall])
        "get_blog" [] demoTimes 0).2.totalRequests =
      (runCalls demoRegistry (initStats (demoRegistry.map (fun t => t.name))) [demoCall]).totalRequests + 1 ∧
    ∃ u, recGet (runCalls demoRegistry (initStats (demoRegistry.map (fun t => t.name))) [demoCall]).toolUsage "get_blog" = some u ∧
      recGet (dispatch demoRegistry (runCalls demoRegistry (initStats (demoRegistry.map (fun t => t.name))) [demoCall])
        "get_blog" [] demoTimes 0).2.toolUsage "get_blog" = some (u + 1)) :=
  ⟨by decide, registered_tool_usage demoRegistry [demoCall] "get_blog" [] demoTimes 0 (by decide)⟩

/-- Fixture server state for the transport-level witness. -/
def demoState : ServerState :=
  { stats := initStats demoNames, connections := [] }

/-- C8: transport-level failures never reach the dispatcher and leave
the whole server state (stats and connection tracker) unchanged: a
body over the 1 MiB ceiling is answered 413 with no dispatch, and a
body that fails to parse as JSON is answered 400 with a
"Parsing error" message and no tracker update. -/
theorem transport_errors_no_dispatch (st : ServerState)
    (tools : List ToolDef) (bodySize : Nat) (body : ParseOutcome)
    (clientId : String) (clientIp : Option String) (now : Int)
    (tm : PhaseTimes) (clock : Nat) (details : String) :
    (bodySize > MAX_BODY_SIZE →
      handlePost st tools bodySize body clientId clientIp now tm clock =
        ({ status := 413, errorBody := some "Request entity too large",
           payload := none }, st)) ∧
    (bodySize ≤ MAX_BODY_SIZE → body = ParseOutcome.fail details →
      handlePost st tools bodySize body clientId clientIp now tm clock =
        ({ status := 400, errorBody := some ("Parsing error: " ++ details),
           payload := none }, st)) := by
  constructor
  · intro h
    unfold handlePost
    rw [if_pos h]
  · intro h hb
    subst hb
    unfold handlePost
    rw [if_neg (Nat.not_lt.mpr h)]

theorem transport_errors_no_dispatch_witness :
    (2 * 1024 * 1024 > MAX_BODY_SIZE ∧
      handlePost demoState demoRegistry (2 * 1024 * 1024)
          (ParseOutcome.fail "bad") "client" none 0 demoTimes 0 =
        ({ status := 413, errorBody := some "Request entity too large",
           payload := none }, demoState)) ∧
    (0 ≤ MAX_BODY_SIZE ∧
      handlePost demoState demoRegistry 0
          (ParseOutcome.fail "bad") "client" none 0 demoTimes 0 =
        ({ status := 400, errorBody := some ("Parsing error: " ++ "bad"),
           payload := none }, demoState)) :=
  ⟨⟨by decide,
    (transport_errors_no_dispatch demoState demoRegistry (2 * 1024 * 1024)
      (ParseOutcome.fail "bad") "client" none 0 demoTimes 0 "bad").1
      (by decide)⟩,
   ⟨by decide,
    (transport_errors_no_dispatch demoState demoRegistry 0
      (ParseOutcome.fail "bad") "client" none 0 demoTimes 0 "bad").2
      (by decide) rfl⟩⟩

/-- C9: on every tracker update, no surviving connection is older than
the five-minute window, the connection that triggered the update is
always present afterwards, and a connection created at t0 is still
present after an update at t0 + 299s from a different identifier but
absent after an update at t0 + 301s from a different identifier. -/
theorem connection_pruning (conns : List (String × ClientConnection))
    (id : String) (ip : Option String) (now : Int)
    (t0 : Int) (id0 id1 : String) (ip0 ip1 : Option String)
    (hne : id0 ≠ id1) :
    (∀ p ∈ updateConnections conns id ip now,
      ¬ (p.2.lastActivity < now - RETENTION_MS)) ∧
    (∃ c, recGet (updateConnections conns id ip now) id = some c) ∧
    (∃ c, recGet (updateConnections (updateConnections [] id0 ip0 t0)
        id1 ip1 (t0 + 299000)) id0 = some c) ∧
    recGet (updateConnections (updateConnections [] id0 ip0 t0)
        id1 ip1 (t0 + 301000)) id0 = none := by
  have hc0 : updateConnections [] id0 ip0 t0 =
      [(id0, { id := id0, ip := ip0, connectedAt := t0,
               lastActivity := t0, requestCount := 1 })] := by
    rw [updateConnections_eq]
    simp only [recGet_nil, List.nil_append]
    simp [not_lt_retention t0]
  have hbe : (id0 == id1) = false := beq_eq_false_iff_ne.mpr hne
  have hbe2 : (id1 == id0) = false := beq_eq_false_iff_ne.mpr (Ne.symm hne)
  refine ⟨?_, ?_, ?_, ?_⟩
  · intro p hp
    rw [updateConnections_eq] at hp
    have hmem := (List.mem_filter.mp hp).2
    simpa using hmem
  · cases hg : recGet conns id with
    | none => exact ⟨_, recGet_updateConnections_new conns id ip now hg⟩
    | some c => exact ⟨_, recGet_updateConnections_touch conns id ip now c hg⟩
  · rw [hc0, updateConnections_eq]
    have hg : recGet [(id0, (⟨id0, ip0, t0, t0, 1⟩ : ClientConnection))]
        id1 = none := by
      simp [recGet, hbe]
    rw [hg]
    have h1 : ¬ (t0 < t0 + 299000 - RETENTION_MS) := by
      simp only [RETENTION_MS]
      omega
    refine ⟨⟨id0, ip0, t0, t0, 1⟩, ?_⟩
    simp [recGet, List.filter, h1, not_lt_retention (t0 + 299000)]
  · rw [hc0, updateConnections_eq]
    have hg : recGet [(id0, (⟨id0, ip0, t0, t0, 1⟩ : ClientConnection))]
        id1 = none := by
      simp [recGet, hbe]
    rw [hg]
    have h2 : t0 < t0 + 301000 - RETENTION_MS := by
      simp only [RETENTION_MS]
      omega
    simp [recGet, List.filter, h2, not_lt_retention (t0 + 301000), hbe2]

theorem connection_pruning_witness :
    ("a" ≠ "b") ∧
    ((∀ p ∈ updateConnections [] "a" none 0,
      ¬ (p.2.lastActivity < 0 - RETENTION_MS)) ∧
    (∃ c, recGet (updateConnections [] "a" none 0) "a" = some c) ∧
    (∃ c, recGet (updateConnections (updateConnections [] "a" none 0)
        "b" none (0 + 299000)) "a" = some c) ∧
    recGet (updateConnections (updateConnections [] "a" none 0)
        "b" none (0 + 301000)) "a" = none) :=
  ⟨by decide, connection_pruning [] "a" none 0 0 "a" "b" none none (by decide)⟩

/-- C10: a touch for an identifier already present in the tracker sets
its lastActivity to the touch time, increments its requestCount by
exactly one, and leaves its id, ip and connectedAt fields unchanged. -/
theorem connection_touch_frame (conns : List (String × ClientConnection))
    (id : String) (ip2 : Option String) (now : Int) (c : ClientConnection)
    (h : recGet conns id = some c) :
    recGet (updateConnections conns id ip2 now) id =
      some { id := c.id, ip := c.ip, connectedAt := c.connectedAt,
             lastActivity := now, requestCount := c.requestCount + 1 } :=
  recGet_updateConnections_touch conns id ip2 now c h

/-- A fixture connection for the touch witness. -/
def demoConn : ClientConnection :=
  { id := "c1", ip := some "127.0.0.1", connectedAt := 0,
    lastActivity := 0, requestCount := 1 }

theorem connection_touch_frame_witness :
    recGet [("c1", demoConn)] "c1" = some demoConn ∧
    recGet (updateConnections [("c1", demoConn)] "c1"
        (some "10.0.0.1") 1000) "c1" =
      some { id := demoConn.id, ip := demoConn.ip,
             connectedAt := demoConn.connectedAt,
             lastActivity := 1000,
             requestCount := demoConn.requestCount + 1 } :=
  ⟨rfl, connection_touch_frame [("c1", demoConn)] "c1"
    (some "10.0.0.1") 1000 demoConn rfl⟩

end BloggerMCP
